import Mathlib

/-!
Verification of the topos-based argument engine (src/lol.py, "Telika
kephalaia Action", version 0.3.3).

The whole core is pure string templating, so it is embedded shallowly:
Python dicts become association lists (insertion order kept), `str.format`
becomes a one-pass placeholder substitution over the character list,
`str.strip` becomes `pyStrip`, `"; ".join` becomes `pyJoin`.  Places where
the Python code can raise (`RATIO_BANK[ratio_id]` KeyError lookups) are
modelled with `Option`: `none` is a raised exception.  All names follow the
source where Lean allows it.
-/

/-- RatioMode = Literal["off", "light", "full"] (src/lol.py line 22). -/
inductive RatioMode where
  | off
  | light
  | full
deriving DecidableEq, Repr

/-- One entry of RATIO_BANK: a dict with keys "label", "for", "against"
(src/lol.py lines 25-103).  `forText`/`againstText` hold the two templates,
with their `{claim}`, `{scene_hint}` and `{purpose_hint}` placeholders kept
literally; substitution happens in `formatTemplate`. -/
structure RatioSpec where
  label : String
  forText : String
  againstText : String
deriving DecidableEq, Repr

/-- RATIO_BANK: ratio_id -> label and templates (src/lol.py lines 25-103),
as an association list in the source's insertion order. -/
def RATIO_BANK : List (String × RatioSpec) := [
  ("scene_act",
    { label := "Scene–Act (kontekst → handling)",
      forText := "Givet scenen/konteksten ({scene_hint}), fremstår handlingen '{claim}' som en passende respons, fordi omstændighederne gør denne type tiltag forventeligt/tilpasset.",
      againstText := "Netop fordi scenen/konteksten ({scene_hint}) ser ud som den gør, er handlingen '{claim}' misforholdt eller risikabel: konteksten peger på andre, mere proportionale skridt." }),
  ("act_scene",
    { label := "Act–Scene (handling → ny kontekst)",
      forText := "Hvis vi gennemfører '{claim}', skaber handlingen en ny scene/kontekst: incitamenter, normer eller rammer flyttes, så ønskede effekter bliver mere sandsynlige.",
      againstText := "Hvis vi gennemfører '{claim}', skaber handlingen en scene/kontekst, hvor uønskede effekter bliver mere sandsynlige (fx omgåelse, skævvridning, mistillid eller systempres)." }),
  ("agent_act",
    { label := "Agent–Act (aktør/ansvar → handling)",
      forText := "Set som Agent–Act: Den/de relevante aktører bør handle i retning af '{claim}', fordi deres rolle, ansvar eller legitimitet netop forpligter dem til denne type handling.",
      againstText := "Set som Agent–Act: Det er urimeligt at pålægge aktøren '{claim}', fordi handlingen ikke passer til aktørens mandat/rolle/ansvar – og ansvaret bør placeres andetsteds." }),
  ("act_agent",
    { label := "Act–Agent (handling → karakter/legitimitet)",
      forText := "Set som Act–Agent: At gennemføre '{claim}' signalerer ansvarlighed og integritet – og styrker aktørens legitimitet i den relevante offentlighed.",
      againstText := "Set som Act–Agent: At gennemføre '{claim}' kan signalere hykleri, overgreb eller naivitet – og svækker dermed aktørens troværdighed/legitimitet." }),
  ("agency_act",
    { label := "Agency–Act (midler → handlingens kvalitet)",
      forText := "Set som Agency–Act: Med de rigtige midler/procedurer kan '{claim}' udføres præcist og proportionelt, så intentionen realiseres uden unødig skade.",
      againstText := "Set som Agency–Act: Uden robuste midler/procedurer bliver '{claim}' enten symbolpolitik eller vilkårlig håndhævelse, hvilket undergraver både effekt og legitimitet." }),
  ("purpose_act",
    { label := "Purpose–Act (mål → handling)",
      forText := "Set som Purpose–Act: Hvis målet er ({purpose_hint}), følger '{claim}' som et konsistent skridt for at realisere dette telos.",
      againstText := "Set som Purpose–Act: Hvis målet er ({purpose_hint}), er '{claim}' en omvej eller kontraproduktivt – andre handlinger realiserer målet mere sikkert/billigt/retfærdigt." }),
  ("act_purpose",
    { label := "Act–Purpose (handling → afslører formål)",
      forText := "Set som Act–Purpose: '{claim}' er ikke bare retorik; det er den type handling, der i praksis kan realisere et erklæret formål – og gør målet troværdigt.",
      againstText := "Set som Act–Purpose: '{claim}' kan dække over et andet (u-udtalt) formål end det erklærede, fx kontrol/PR/omfordeling – hvilket bør problematiseres." })
]

/-- TOPOS_TO_DEFAULT_RATIOS (src/lol.py lines 106-114). -/
def TOPOS_TO_DEFAULT_RATIOS : List (String × List String) := [
  ("Lovlighed", ["agency_act", "act_purpose"]),
  ("Gennemførlighed", ["agency_act", "scene_act"]),
  ("Nytte", ["purpose_act", "act_scene"]),
  ("Konsekvenser", ["act_scene", "scene_act"]),
  ("Nødvendighed", ["scene_act", "purpose_act"]),
  ("Retfærdighed", ["agent_act", "act_agent"]),
  ("Ære", ["act_agent", "agent_act"])
]

/-- TOPOI: the canonical ordered topic catalog (src/lol.py lines 185-193). -/
def TOPOI : List String := [
  "Lovlighed",
  "Retfærdighed",
  "Nytte",
  "Nødvendighed",
  "Gennemførlighed",
  "Ære",
  "Konsekvenser"
]

/-- Argument (src/lol.py lines 166-172). -/
structure Argument where
  topos : String
  argument : String
  suggestions : List String
  ratio_id : Option String := none
  ratio : Option String := none
deriving DecidableEq, Repr

/-- LolRequest (src/lol.py lines 119-163).  The pydantic bounds
(1 ≤ max_topoi ≤ 7, 1 ≤ ratios_per_topos ≤ 4) are boundary validation;
here they appear as hypotheses of the theorems that need them. -/
structure LolRequest where
  claim : String
  language : String := "da"
  max_topoi : Nat := 7
  legal_sources : Option (List String) := none
  ratio_mode : RatioMode := RatioMode.off
  ratios_per_topos : Nat := 2
  ratios : Option (List String) := none
deriving DecidableEq, Repr

/-- LolResponse (src/lol.py lines 175-180). -/
structure LolResponse where
  claim : String
  language : String
  for_arguments : List Argument
  against : List Argument
deriving DecidableEq, Repr

/-- Python `str.strip()`: drop leading and trailing whitespace.  Embedded on
the character list so that it reduces in the kernel. -/
def pyStrip (s : String) : String :=
  String.mk (((s.data.dropWhile Char.isWhitespace).reverse.dropWhile Char.isWhitespace).reverse)

/-- Python `sep.join(items)`. -/
def pyJoin (sep : String) : List String → String
  | [] => ""
  | [s] => s
  | s :: rest => s ++ sep ++ pyJoin sep rest

/-- The fixed placeholder substituted when no usable legal source is given
(src/lol.py lines 201 and 204). -/
def noSourcePlaceholder : String :=
  "— (Mangler konkret lovhenvisning: angiv relevante love/rammer i `legal_sources`.)"

/-- _format_legal_sources (src/lol.py lines 198-205). -/
def _format_legal_sources (legal_sources : Option (List String)) (max_items : Nat := 3) : String :=
  match legal_sources with
  | none => noSourcePlaceholder
  | some srcs =>
    if srcs = [] then noSourcePlaceholder
    else
      let picked := ((srcs.filter (fun s => s != "" && pyStrip s != "")).map pyStrip).take max_items
      if picked = [] then noSourcePlaceholder
      else pyJoin "; " picked

/-- One step of the filter/dedup loop in _normalize_ratio_ids
(src/lol.py lines 213-216): keep the stripped id when it is a RATIO_BANK
key not yet collected. -/
def _norm_step (out : List String) (r : String) : List String :=
  let rid := pyStrip r
  if (RATIO_BANK.lookup rid).isSome && !out.contains rid then out ++ [rid] else out

/-- _normalize_ratio_ids (src/lol.py lines 208-217). -/
def _normalize_ratio_ids (requested : Option (List String)) : List String :=
  match requested with
  | none => []
  | some rs => rs.foldl _norm_step []

/-- One step of the pool-building loops in _pick_ratios_for_topos
(src/lol.py lines 239-241 and 244-246): append rid when it is a RATIO_BANK
key not already in the pool. -/
def addIfValid (pool : List String) (rid : String) : List String :=
  if (RATIO_BANK.lookup rid).isSome && !pool.contains rid then pool ++ [rid] else pool

/-- The candidate pool of _pick_ratios_for_topos (src/lol.py lines
235-246): requested ids first (filtered to the bank, deduplicated), then
the topic's default ratios (or the fallback ["scene_act"]), same filter. -/
def _candidate_pool (topos : String) (requested_ratio_ids : List String) : List String :=
  let defaults := (TOPOS_TO_DEFAULT_RATIOS.lookup topos).getD ["scene_act"]
  defaults.foldl addIfValid (requested_ratio_ids.foldl addIfValid [])

/-- _pick_ratios_for_topos (src/lol.py lines 220-250): off = [],
light = first pool element, full = pool truncated to ratios_per_topos. -/
def _pick_ratios_for_topos (topos : String) (ratio_mode : RatioMode)
    (ratios_per_topos : Nat) (requested_ratio_ids : List String) : List String :=
  if ratio_mode = RatioMode.off then []
  else if ratio_mode = RatioMode.light then (_candidate_pool topos requested_ratio_ids).take 1
  else (_candidate_pool topos requested_ratio_ids).take ratios_per_topos

/-- One-pass model of Python `template.format(...)`: a `\x7bname\x7d`
placeholder is replaced by its value from `env` (left as-is when the name
is unknown or the brace unclosed; the fixed templates of RATIO_BANK only
ever use well-formed placeholders whose names `env` supplies).  `acc` is
`some keyChars` while scanning inside a placeholder. -/
def substChars (env : List (String × String)) : List Char → Option (List Char) → List Char
  | [], none => []
  | [], some keyAcc => '{' :: keyAcc.reverse
  | c :: rest, none =>
    if c = '{' then substChars env rest (some [])
    else c :: substChars env rest none
  | c :: rest, some keyAcc =>
    if c = '}' then
      let key := String.mk keyAcc.reverse
      ((env.lookup key).getD ("\x7b" ++ key ++ "\x7d")).data ++ substChars env rest none
    else substChars env rest (some (c :: keyAcc))

/-- Python `template.format(**env)` over the fixed templates. -/
def formatTemplate (template : String) (env : List (String × String)) : String :=
  String.mk (substChars env template.data none)

/-- The side parameter of _ratio_text: Literal["for", "against"]
(src/lol.py line 255). -/
inductive RatioSide where
  | forSide
  | againstSide
deriving DecidableEq, Repr

/-- The scene_hint lookup table of _ratio_text (src/lol.py lines 267-275),
abstracted over the already-formatted sources_txt it interpolates. -/
def _scene_hints (sources_txt : String) : List (String × String) := [
  ("Lovlighed", "retlige rammer og kompetencekrav (" ++ sources_txt ++ ")"),
  ("Gennemførlighed", "implementeringskrav, institutioner og ressourcer (" ++ sources_txt ++ ")"),
  ("Nytte", "samfundsøkonomi, incitamenter og fordelingsvirkninger"),
  ("Konsekvenser", "risici, bivirkninger og second-order effects"),
  ("Nødvendighed", "tidspres, uomgængelige vilkår og handlingspres"),
  ("Retfærdighed", "byrdefordeling, ligheds- og rimelighedsnormer"),
  ("Ære", "troværdighed, identitet og normer i offentligheden")
]

/-- The purpose_hint lookup table of _ratio_text (src/lol.py lines 277-285). -/
def _purpose_hints : List (String × String) := [
  ("Nytte", "størst mulig gavn for flest mulige"),
  ("Konsekvenser", "minimering af skade og maksimering af positive følgevirkninger"),
  ("Nødvendighed", "at undgå værre følger under de givne vilkår"),
  ("Retfærdighed", "en mere rimelig fordeling af goder og byrder"),
  ("Ære", "at styrke integritet og moralsk autoritet"),
  ("Lovlighed", "at sikre legitim hjemmel og retsstatlighed"),
  ("Gennemførlighed", "at realisere intentionen i praksis")
]

/-- _ratio_text (src/lol.py lines 253-295).  `none` models the KeyError
Python raises at line 287 when ratio_id is not a RATIO_BANK key. -/
def _ratio_text (ratio_id : String) (side : RatioSide) (claim : String)
    (topos : String) (legal_sources : Option (List String)) : Option String :=
  let sources_txt := _format_legal_sources legal_sources
  let scene_hint := ((_scene_hints sources_txt).lookup topos).getD "den relevante kontekst"
  let purpose_hint := (_purpose_hints.lookup topos).getD "at realisere et legitimt mål"
  match RATIO_BANK.lookup ratio_id with
  | none => none
  | some spec =>
    let template := match side with
      | RatioSide.forSide => spec.forText
      | RatioSide.againstSide => spec.againstText
    some (formatTemplate template
      [("claim", claim), ("scene_hint", scene_hint), ("purpose_hint", purpose_hint),
       ("topos", topos), ("legal_sources", sources_txt)])

/-- One iteration of the light/full composition in _wrap (src/lol.py lines
337-347 and 353-362): look up the label, render both ratio texts, and build
the FOR/AGAINST Argument pair carrying ratio_id and label.  `none` models
the KeyError of `RATIO_BANK[rid]`. -/
def _ratio_variant (topos claim : String) (legal_sources : Option (List String))
    (base_for_text base_against_text : String)
    (for_suggestions against_suggestions : List String) (rid : String) :
    Option (Argument × Argument) :=
  match RATIO_BANK.lookup rid with
  | none => none
  | some spec =>
    match _ratio_text rid RatioSide.forSide claim topos legal_sources,
          _ratio_text rid RatioSide.againstSide claim topos legal_sources with
    | some ratio_for, some ratio_against =>
      some
        ({ topos := topos,
           argument := base_for_text ++ "\n\nRatio-linse: " ++ spec.label ++ "\n" ++ ratio_for,
           suggestions := for_suggestions, ratio_id := some rid, ratio := some spec.label },
         { topos := topos,
           argument := base_against_text ++ "\n\nRatio-linse: " ++ spec.label ++ "\n" ++ ratio_against,
           suggestions := against_suggestions, ratio_id := some rid, ratio := some spec.label })
    | _, _ => none

/-- The `for rid in chosen_ratios` loop of _wrap's full branch (src/lol.py
lines 351-364), collecting the FOR list and the AGAINST list in order. -/
def _variants (topos claim : String) (legal_sources : Option (List String))
    (base_for_text base_against_text : String)
    (for_suggestions against_suggestions : List String) :
    List String → Option (List Argument × List Argument)
  | [] => some ([], [])
  | rid :: rest =>
    match _ratio_variant topos claim legal_sources base_for_text base_against_text
        for_suggestions against_suggestions rid with
    | none => none
    | some (af, aa) =>
      match _variants topos claim legal_sources base_for_text base_against_text
          for_suggestions against_suggestions rest with
      | none => none
      | some (fs, bs) => some (af :: fs, aa :: bs)

/-- _wrap (src/lol.py lines 322-364): off or empty chosen list = one plain
Argument per side; light = one lens-augmented Argument per side from the
first chosen ratio; full = one pair per chosen ratio. -/
def _wrap (topos claim : String) (legal_sources : Option (List String))
    (ratio_mode : RatioMode) (chosen_ratios : List String)
    (base_for_text base_against_text : String)
    (for_suggestions against_suggestions : List String) :
    Option (List Argument × List Argument) :=
  if ratio_mode = RatioMode.off ∨ chosen_ratios = [] then
    some ([{ topos := topos, argument := base_for_text, suggestions := for_suggestions }],
          [{ topos := topos, argument := base_against_text, suggestions := against_suggestions }])
  else if ratio_mode = RatioMode.light then
    match chosen_ratios with
    | [] => none
    | rid :: _ =>
      (_ratio_variant topos claim legal_sources base_for_text base_against_text
          for_suggestions against_suggestions rid).map
        (fun p => ([p.1], [p.2]))
  else
    _variants topos claim legal_sources base_for_text base_against_text
      for_suggestions against_suggestions chosen_ratios

/-- The four per-topic pieces every branch of generate_arguments_for_topos
hands to _wrap: base FOR text, base AGAINST text, FOR suggestions, AGAINST
suggestions. -/
structure BaseParts where
  base_for_text : String
  base_against_text : String
  for_suggestions : List String
  against_suggestions : List String
deriving DecidableEq, Repr

/-- The topic-specific base argumentation of generate_arguments_for_topos
(src/lol.py lines 366-541): the if-chain over the topic name, ending in the
generic fallback.  Each branch's f-strings are expanded into explicit
concatenations. -/
def _base_parts (topos claim : String) (legal_sources : Option (List String)) : BaseParts :=
  if topos = "Lovlighed" then
    let sources_txt := _format_legal_sources legal_sources
    { base_for_text :=
        "Ud fra lovlighedstopos kan man FOR påstanden '" ++ claim ++ "' hævde, at den kan hjemles eller forankres i følgende konkrete lovkilder/rammer: " ++ sources_txt ++ ". Argumentet styrkes ved at udpege præcis hjemmel (lov/§/artikel) og forklare, hvordan den muliggør tiltaget.",
      base_against_text :=
        "IMOD påstanden '" ++ claim ++ "' kan man ud fra lovlighedstopos hævde, at den kolliderer med konkrete retsregler, rettigheder eller kompetenceregler, fx i: " ++ sources_txt ++ ". Modargumentet styrkes ved at pege på den præcise regel (lov/§/artikel) og den retlige konflikt (hjemmelsmangel, proportionalitet, lighedsgrundsætning, mv.).",
      for_suggestions := [
        "Angiv *konkret hjemmel*: lov + paragraf / EU-forordning + artikel / bekendtgørelse + §.",
        "Angiv *kompetence*: hvilken myndighed har hjemlen, og via hvilken bestemmelse?",
        "Angiv *praksis*: relevante afgørelser/forarbejder/vejledninger (hvis kendt)."],
      against_suggestions := [
        "Test for *hjemmelsmangel*: kræver tiltaget særskilt lovhjemmel?",
        "Peg på *rettighedskonflikt*: fx grundrettigheder, databeskyttelse, ligebehandling, mv.",
        "Peg på *procedureregler*: høring, proportionalitet, begrundelseskrav, klageadgang, mv."] }
  else if topos = "Gennemførlighed" then
    let sources_txt := _format_legal_sources legal_sources
    { base_for_text :=
        "Ud fra gennemførlighedstopos kan man FOR påstanden '" ++ claim ++ "' hævde, at den er implementerbar gennem konkrete juridiske instrumenter og processer, fx via: " ++ sources_txt ++ ". Argumentet styrkes ved at skitsere, *hvilken* lov-/regelændring eller *hvilken* administrativ procedure der faktisk skal gennemføres (trinvis).",
      base_against_text :=
        "IMOD påstanden '" ++ claim ++ "' kan man hævde, at den i praksis er vanskelig at gennemføre, fordi den kræver ændringer i konkret lovgivning, tværmyndighedskoordination eller administrative procedurer, fx relateret til: " ++ sources_txt ++ ". Modargumentet styrkes ved at pege på flaskehalse i lovproces/forvaltning/tilsyn/IT.",
      for_suggestions := [
        "Angiv *implementeringsvej*: lovforslag, bekendtgørelse, cirkulære, vejledning, kontrakt, mv.",
        "Angiv *myndighed + proces*: hvem udmønter, og hvilke formkrav gælder (høring, ikrafttræden, tilsyn)?",
        "Angiv *compliance*: hvordan håndhæves/reguleres det (tilsyn, sanktioner, rapportering)?"],
      against_suggestions := [
        "Peg på *lovteknisk kompleksitet*: mange love, krydshenvisninger, EU-retlige bindinger, mv.",
        "Peg på *administrativ byrde*: data, kontrol, klagesager, ressourcebehov i myndigheder/aktører.",
        "Peg på *håndhævelse*: risiko for omgåelse, manglende sanktionsmuligheder, bevisproblemer, mv."] }
  else if topos = "Retfærdighed" then
    { base_for_text :=
        "FOR påstanden '" ++ claim ++ "' kan man med retfærdighedstopos hævde, at den bidrager til en mere rimelig og fair fordeling af byrder og goder.",
      base_against_text :=
        "IMOD påstanden '" ++ claim ++ "' kan man hævde, at den skaber eller forværrer uretfærdige forskelle mellem grupper eller individer.",
      for_suggestions := [
        "Vis hvem der vinder retfærdighed ved tiltaget.",
        "Brug fordelingsprincipper (lighed, behov, fortjeneste).",
        "Inddrag eksempler hvor lignende tiltag har virket retfærdigt."],
      against_suggestions := [
        "Peg på grupper, der stilles ringere uden god begrundelse.",
        "Sammenlign med idealer om lighed og ikke-diskrimination.",
        "Brug cases, hvor reformer opleves som uretfærdige."] }
  else if topos = "Nytte" then
    { base_for_text :=
        "Ud fra nyttetopos kan man FOR påstanden '" ++ claim ++ "' hævde, at den samlet set skaber størst mulig gavn for flest mulige.",
      base_against_text :=
        "IMOD påstanden '" ++ claim ++ "' kan man med nyttetopos hævde, at de samlede gevinster er begrænsede eller opvejes af betydelige omkostninger.",
      for_suggestions := [
        "Opgør gevinster i tal eller konkrete forbedringer.",
        "Kobl til samfundsøkonomi, trivsel eller effektivitet.",
        "Vis langsigtede nytteeffekter frem for kun kortsigtede."],
      against_suggestions := [
        "Fremhæv skjulte eller langsigtede omkostninger.",
        "Vis hvordan enkelte grupper betaler prisen for andres nytte.",
        "Sammenlign med alternative tiltag med større nytte."] }
  else if topos = "Nødvendighed" then
    { base_for_text :=
        "FOR påstanden '" ++ claim ++ "' kan man fra nødvendighedstopos hævde, at der ikke findes realistiske alternativer, hvis man vil undgå værre følger.",
      base_against_text :=
        "IMOD påstanden '" ++ claim ++ "' kan man hævde, at nødvendighed påberåbes for hurtigt, og at mulige alternativer eller mellemveje overses.",
      for_suggestions := [
        "Beskriv hvilke problemer der ellers vil opstå.",
        "Peg på tidspres, udefrakommende krav eller uomgængelige vilkår.",
        "Vis hvorfor alternativer realistisk set er lukkede."],
      against_suggestions := [
        "Identificér oversete alternativer eller kompromisser.",
        "Problematisér brugen af 'der er ikke noget valg'-retorik.",
        "Brug eksempler på, at lignende situationer er løst anderledes."] }
  else if topos = "Ære" then
    { base_for_text :=
        "FOR påstanden '" ++ claim ++ "' kan man ud fra ærestopos hævde, at den styrker vores omdømme, integritet eller moralske autoritet.",
      base_against_text :=
        "IMOD påstanden '" ++ claim ++ "' kan man hævde, at den skader vores troværdighed, værdighed eller selvforståelse som fællesskab.",
      for_suggestions := [
        "Kobl til identitet (nation, institution, profession).",
        "Vis hvordan tiltaget signalerer ansvarlighed eller mod.",
        "Brug eksempler på, at omdømme har haft konkret betydning."],
      against_suggestions := [
        "Peg på risiko for at fremstå hyklerisk eller utroværdig.",
        "Kobl til tidligere brud på idealer og løfter.",
        "Vis hvordan tiltaget strider mod udmeldte værdier."] }
  else if topos = "Konsekvenser" then
    { base_for_text :=
        "FOR påstanden '" ++ claim ++ "' kan man fra konsekvenstopos hævde, at dens positive følgevirkninger (direkte og indirekte) vejer tungt.",
      base_against_text :=
        "IMOD påstanden '" ++ claim ++ "' kan man hævde, at dens negative følgevirkninger (bivirkninger, utilsigtede effekter) er alvorlige.",
      for_suggestions := [
        "Skeln mellem kortsigtede og langsigtede konsekvenser.",
        "Brug scenarier eller fremskrivninger.",
        "Vis, hvem der vinder og taber på sigt."],
      against_suggestions := [
        "Fremhæv risici og usikkerhed.",
        "Beskriv worst case-scenarier uden at overdrive.",
        "Vis hvordan små ændringer kan give store negative effekter."] }
  else
    { base_for_text :=
        "FOR påstanden '" ++ claim ++ "' kan der ud fra '" ++ topos ++ "'-topos formuleres generelle fordele.",
      base_against_text :=
        "IMOD påstanden '" ++ claim ++ "' kan der ud fra '" ++ topos ++ "'-topos formuleres generelle ulemper.",
      for_suggestions := ["Uddyb topos nærmere.", "Brug konkrete eksempler."],
      against_suggestions := ["Uddyb topos nærmere.", "Brug konkrete eksempler."] }

/-- generate_arguments_for_topos (src/lol.py lines 300-541): pick the
ratios, look up the topic's base argumentation, and compose through _wrap.
`none` models a propagated KeyError. -/
def generate_arguments_for_topos (topos claim : String)
    (legal_sources : Option (List String) := none)
    (ratio_mode : RatioMode := RatioMode.off)
    (ratios_per_topos : Nat := 2)
    (requested_ratio_ids : Option (List String) := none) :
    Option (List Argument × List Argument) :=
  let reqIds := requested_ratio_ids.getD []
  let chosen_ratios := _pick_ratios_for_topos topos ratio_mode ratios_per_topos reqIds
  let p := _base_parts topos claim legal_sources
  _wrap topos claim legal_sources ratio_mode chosen_ratios
    p.base_for_text p.base_against_text p.for_suggestions p.against_suggestions

/-- The `for t in selected_topoi` loop of lol_action (src/lol.py lines
561-571), extending the FOR and AGAINST accumulators in topic order. -/
def _collect (topoi : List String) (claim : String) (legal_sources : Option (List String))
    (ratio_mode : RatioMode) (ratios_per_topos : Nat) (requested_ratio_ids : List String) :
    Option (List Argument × List Argument) :=
  match topoi with
  | [] => some ([], [])
  | t :: rest =>
    match generate_arguments_for_topos t claim legal_sources ratio_mode ratios_per_topos
        (some requested_ratio_ids) with
    | none => none
    | some (fa, aa) =>
      match _collect rest claim legal_sources ratio_mode ratios_per_topos requested_ratio_ids with
      | none => none
      | some (fs, bs) => some (fa ++ fs, aa ++ bs)

/-- lol_action, the POST /lol endpoint behind the request boundary
(src/lol.py lines 546-578). -/
def lol_action (req : LolRequest) : Option LolResponse :=
  let selected_topoi := TOPOI.take req.max_topoi
  let requested_ratio_ids := _normalize_ratio_ids req.ratios
  match _collect selected_topoi req.claim req.legal_sources req.ratio_mode
      req.ratios_per_topos requested_ratio_ids with
  | none => none
  | some (fa, aa) =>
    some { claim := req.claim, language := req.language, for_arguments := fa, against := aa }


/-- Concrete requests used in the end-to-end scenarios and as witness
inputs for the universally quantified theorems. -/
def reqOff3 : LolRequest := { claim := "X", max_topoi := 3 }

def reqOff2 : LolRequest := { claim := "X", max_topoi := 2 }

def reqLight2 : LolRequest := { claim := "X", max_topoi := 2, ratio_mode := RatioMode.light }

def reqLight7 : LolRequest := { claim := "X", max_topoi := 7, ratio_mode := RatioMode.light }

def reqFull2 : LolRequest :=
  { claim := "X", max_topoi := 2, ratio_mode := RatioMode.full,
    ratios_per_topos := 4, ratios := some ["agent_act"] }

/-! ## Pool lemmas: everything the selection loops collect is a RATIO_BANK key,
the candidate pool is never empty and never holds duplicates. -/

lemma addIfValid_bank (pool : List String) (rid : String)
    (h : ∀ x ∈ pool, (RATIO_BANK.lookup x).isSome = true) :
    ∀ x ∈ addIfValid pool rid, (RATIO_BANK.lookup x).isSome = true := by
  intro x hx
  unfold addIfValid at hx
  split at hx
  · rename_i hcond
    rcases List.mem_append.1 hx with h1 | h1
    · exact h x h1
    · rcases List.mem_singleton.1 h1 with rfl
      rw [Bool.and_eq_true] at hcond
      exact hcond.1
  · exact h x hx

lemma foldl_addIfValid_bank (l : List String) :
    ∀ pool, (∀ x ∈ pool, (RATIO_BANK.lookup x).isSome = true) →
      ∀ x ∈ l.foldl addIfValid pool, (RATIO_BANK.lookup x).isSome = true := by
  induction l with
  | nil => intro pool h; simpa using h
  | cons r rest ih =>
    intro pool h
    exact ih (addIfValid pool r) (addIfValid_bank pool r h)

lemma candidate_pool_bank (topos : String) (ids : List String) :
    ∀ x ∈ _candidate_pool topos ids, (RATIO_BANK.lookup x).isSome = true := by
  unfold _candidate_pool
  exact foldl_addIfValid_bank _ _ (foldl_addIfValid_bank _ _ (by simp))

lemma addIfValid_ne_nil (pool : List String) (rid : String) (h : pool ≠ []) :
    addIfValid pool rid ≠ [] := by
  unfold addIfValid
  split
  · rcases List.exists_cons_of_ne_nil h with ⟨p, ps, rfl⟩
    simp
  · exact h

lemma foldl_addIfValid_ne_nil (l : List String) :
    ∀ pool, pool ≠ [] → l.foldl addIfValid pool ≠ [] := by
  induction l with
  | nil => intro pool h; simpa using h
  | cons r rest ih =>
    intro pool h
    exact ih (addIfValid pool r) (addIfValid_ne_nil pool r h)

lemma addIfValid_nil_of_bank (rid : String)
    (h : (RATIO_BANK.lookup rid).isSome = true) : addIfValid [] rid = [rid] := by
  simp [addIfValid, h]

lemma defaults_head (topos : String) :
    ∃ d rest, ((TOPOS_TO_DEFAULT_RATIOS.lookup topos).getD ["scene_act"]) = d :: rest ∧
      (RATIO_BANK.lookup d).isSome = true := by
  rw [TOPOS_TO_DEFAULT_RATIOS]
  simp only [List.lookup]
  repeat' split
  all_goals refine ⟨_, _, rfl, ?_⟩
  all_goals decide

lemma candidate_pool_ne_nil (topos : String) (ids : List String) :
    _candidate_pool topos ids ≠ [] := by
  unfold _candidate_pool
  obtain ⟨d, rest, hd, hbank⟩ := defaults_head topos
  rw [hd]
  by_cases hb : ids.foldl addIfValid [] = []
  · rw [hb]
    show (d :: rest).foldl addIfValid [] ≠ []
    rw [List.foldl_cons, addIfValid_nil_of_bank d hbank]
    exact foldl_addIfValid_ne_nil rest [d] (by simp)
  · rw [List.foldl_cons]
    exact foldl_addIfValid_ne_nil rest _ (addIfValid_ne_nil _ d hb)

lemma addIfValid_nodup (pool : List String) (rid : String) (h : pool.Nodup) :
    (addIfValid pool rid).Nodup := by
  unfold addIfValid
  split
  · rename_i hcond
    rw [Bool.and_eq_true] at hcond
    have hnm : rid ∉ pool := by simpa using hcond.2
    simp [List.nodup_append, h, hnm]
  · exact h

lemma foldl_addIfValid_nodup (l : List String) :
    ∀ pool, pool.Nodup → (l.foldl addIfValid pool).Nodup := by
  induction l with
  | nil => intro pool h; simpa using h
  | cons r rest ih =>
    intro pool h
    exact ih (addIfValid pool r) (addIfValid_nodup pool r h)

lemma candidate_pool_nodup (topos : String) (ids : List String) :
    (_candidate_pool topos ids).Nodup := by
  unfold _candidate_pool
  exact foldl_addIfValid_nodup _ _ (foldl_addIfValid_nodup _ _ List.nodup_nil)

/-- The three mode branches of _pick_ratios_for_topos, as definitional
equations. -/
lemma pick_off (topos : String) (rpt : Nat) (ids : List String) :
    _pick_ratios_for_topos topos RatioMode.off rpt ids = [] := rfl

lemma pick_light (topos : String) (rpt : Nat) (ids : List String) :
    _pick_ratios_for_topos topos RatioMode.light rpt ids =
      (_candidate_pool topos ids).take 1 := rfl

lemma pick_full (topos : String) (rpt : Nat) (ids : List String) :
    _pick_ratios_for_topos topos RatioMode.full rpt ids =
      (_candidate_pool topos ids).take rpt := rfl

lemma pick_bank (topos : String) (mode : RatioMode) (rpt : Nat) (ids : List String) :
    ∀ x ∈ _pick_ratios_for_topos topos mode rpt ids, (RATIO_BANK.lookup x).isSome = true := by
  intro x hx
  cases mode with
  | off => rw [pick_off] at hx; cases hx
  | light =>
    rw [pick_light] at hx
    exact candidate_pool_bank topos ids x (List.take_subset 1 _ hx)
  | full =>
    rw [pick_full] at hx
    exact candidate_pool_bank topos ids x (List.take_subset rpt _ hx)

lemma pick_nodup (topos : String) (mode : RatioMode) (rpt : Nat) (ids : List String) :
    (_pick_ratios_for_topos topos mode rpt ids).Nodup := by
  cases mode with
  | off => rw [pick_off]; exact List.nodup_nil
  | light =>
    rw [pick_light]
    exact (List.take_sublist 1 _).nodup (candidate_pool_nodup topos ids)
  | full =>
    rw [pick_full]
    exact (List.take_sublist rpt _).nodup (candidate_pool_nodup topos ids)

lemma bank_key_ne_empty (rid : String) (h : (RATIO_BANK.lookup rid).isSome = true) :
    rid ≠ "" := by
  intro heq
  subst heq
  exact absurd h (by decide)

/-! ## Composition lemmas: what _ratio_variant, _variants, _wrap and
generate_arguments_for_topos produce in each mode. -/

lemma ratio_variant_some (topos claim : String) (ls : Option (List String))
    (bf ba : String) (sf sa : List String) (rid : String) (spec : RatioSpec)
    (h : RATIO_BANK.lookup rid = some spec) :
    ∃ a b, _ratio_variant topos claim ls bf ba sf sa rid = some (a, b) ∧
      a.topos = topos ∧ a.ratio_id = some rid ∧ a.ratio = some spec.label ∧
      b.topos = topos ∧ b.ratio_id = some rid ∧ b.ratio = some spec.label := by
  simp only [_ratio_variant, _ratio_text, h]
  exact ⟨_, _, rfl, rfl, rfl, rfl, rfl, rfl, rfl⟩

lemma variants_some (topos claim : String) (ls : Option (List String))
    (bf ba : String) (sf sa : List String) :
    ∀ chosen : List String, (∀ rid ∈ chosen, (RATIO_BANK.lookup rid).isSome = true) →
      ∃ fa aa, _variants topos claim ls bf ba sf sa chosen = some (fa, aa) ∧
        fa.map Argument.ratio_id = chosen.map some ∧
        aa.map Argument.ratio_id = chosen.map some ∧
        (∀ a ∈ fa, a.topos = topos ∧ a.ratio_id.isSome = true ∧ a.ratio.isSome = true) ∧
        (∀ a ∈ aa, a.topos = topos ∧ a.ratio_id.isSome = true ∧ a.ratio.isSome = true) := by
  intro chosen
  induction chosen with
  | nil =>
    intro _
    exact ⟨[], [], rfl, rfl, rfl, by simp, by simp⟩
  | cons rid rest ih =>
    intro hbank
    obtain ⟨spec, hspec⟩ := Option.isSome_iff_exists.1 (hbank rid (List.mem_cons_self rid rest))
    obtain ⟨a, b, hvar, hat, hai, har, hbt, hbi, hbr⟩ :=
      ratio_variant_some topos claim ls bf ba sf sa rid spec hspec
    obtain ⟨fs, bs, hrest, hfmap, hbmap, hfall, hball⟩ :=
      ih (fun r hr => hbank r (List.mem_cons_of_mem rid hr))
    refine ⟨a :: fs, b :: bs, ?_, ?_, ?_, ?_, ?_⟩
    · simp only [_variants, hvar, hrest]
    · simp [hai, hfmap]
    · simp [hbi, hbmap]
    · intro x hx
      rcases List.mem_cons.1 hx with rfl | hx
      · exact ⟨hat, by simp [hai], by simp [har]⟩
      · exact hfall x hx
    · intro x hx
      rcases List.mem_cons.1 hx with rfl | hx
      · exact ⟨hbt, by simp [hbi], by simp [hbr]⟩
      · exact hball x hx

lemma wrap_plain (topos claim : String) (ls : Option (List String))
    (mode : RatioMode) (chosen : List String) (bf ba : String) (sf sa : List String)
    (h : mode = RatioMode.off ∨ chosen = []) :
    _wrap topos claim ls mode chosen bf ba sf sa =
      some ([{ topos := topos, argument := bf, suggestions := sf }],
            [{ topos := topos, argument := ba, suggestions := sa }]) := by
  simp only [_wrap, if_pos h]

lemma wrap_light (topos claim : String) (ls : Option (List String))
    (rid : String) (rest : List String) (bf ba : String) (sf sa : List String)
    (spec : RatioSpec) (h : RATIO_BANK.lookup rid = some spec) :
    ∃ a b, _wrap topos claim ls RatioMode.light (rid :: rest) bf ba sf sa = some ([a], [b]) ∧
      a.topos = topos ∧ a.ratio_id = some rid ∧ a.ratio = some spec.label ∧
      b.topos = topos ∧ b.ratio_id = some rid ∧ b.ratio = some spec.label := by
  obtain ⟨a, b, hvar, hat, hai, har, hbt, hbi, hbr⟩ :=
    ratio_variant_some topos claim ls bf ba sf sa rid spec h
  refine ⟨a, b, ?_, hat, hai, har, hbt, hbi, hbr⟩
  have hcond : ¬(RatioMode.light = RatioMode.off ∨ rid :: rest = []) := by simp
  simp [_wrap, if_neg hcond, hvar]

lemma wrap_full (topos claim : String) (ls : Option (List String))
    (chosen : List String) (bf ba : String) (sf sa : List String)
    (hne : chosen ≠ []) :
    _wrap topos claim ls RatioMode.full chosen bf ba sf sa =
      _variants topos claim ls bf ba sf sa chosen := by
  have hcond : ¬(RatioMode.full = RatioMode.off ∨ chosen = []) := by simp [hne]
  have hl : ¬(RatioMode.full = RatioMode.light) := by simp
  simp only [_wrap, if_neg hcond, if_neg hl]

lemma gen_off (t claim : String) (ls : Option (List String)) (rpt : Nat)
    (ids : Option (List String)) :
    generate_arguments_for_topos t claim ls RatioMode.off rpt ids =
      some ([{ topos := t, argument := (_base_parts t claim ls).base_for_text,
               suggestions := (_base_parts t claim ls).for_suggestions }],
            [{ topos := t, argument := (_base_parts t claim ls).base_against_text,
               suggestions := (_base_parts t claim ls).against_suggestions }]) := by
  simp only [generate_arguments_for_topos]
  exact wrap_plain t claim ls RatioMode.off _ _ _ _ _ (Or.inl rfl)

lemma gen_light (t claim : String) (ls : Option (List String)) (rpt : Nat)
    (ids : Option (List String)) :
    ∃ a b rid, generate_arguments_for_topos t claim ls RatioMode.light rpt ids = some ([a], [b]) ∧
      (RATIO_BANK.lookup rid).isSome = true ∧
      a.topos = t ∧ a.ratio_id = some rid ∧ a.ratio.isSome = true ∧
      b.topos = t ∧ b.ratio_id = some rid ∧ b.ratio.isSome = true := by
  obtain ⟨rid, ps, hpool⟩ := List.exists_cons_of_ne_nil (candidate_pool_ne_nil t (ids.getD []))
  have hbank : (RATIO_BANK.lookup rid).isSome = true :=
    candidate_pool_bank t _ rid (hpool ▸ List.mem_cons_self rid ps)
  obtain ⟨spec, hspec⟩ := Option.isSome_iff_exists.1 hbank
  have hchosen : _pick_ratios_for_topos t RatioMode.light rpt (ids.getD []) = [rid] := by
    rw [pick_light, hpool]
    rfl
  obtain ⟨a, b, hw, hat, hai, har, hbt, hbi, hbr⟩ :=
    wrap_light t claim ls rid []
      (_base_parts t claim ls).base_for_text (_base_parts t claim ls).base_against_text
      (_base_parts t claim ls).for_suggestions (_base_parts t claim ls).against_suggestions
      spec hspec
  refine ⟨a, b, rid, ?_, hbank, hat, hai, by simp [har], hbt, hbi, by simp [hbr]⟩
  simp only [generate_arguments_for_topos]
  rw [hchosen]
  exact hw

lemma gen_full (t claim : String) (ls : Option (List String)) (rpt : Nat)
    (ids : Option (List String)) (hr : 1 ≤ rpt) :
    ∃ fa aa, generate_arguments_for_topos t claim ls RatioMode.full rpt ids = some (fa, aa) ∧
      1 ≤ fa.length ∧ fa.length ≤ rpt ∧ aa.length = fa.length ∧
      fa.length ≤ (_candidate_pool t (ids.getD [])).length ∧
      (fa.map Argument.ratio_id).Nodup ∧ (aa.map Argument.ratio_id).Nodup ∧
      (∀ a ∈ fa, a.topos = t ∧ a.ratio_id.isSome = true ∧ a.ratio.isSome = true) ∧
      (∀ a ∈ aa, a.topos = t ∧ a.ratio_id.isSome = true ∧ a.ratio.isSome = true) := by
  obtain ⟨p, ps, hpool⟩ := List.exists_cons_of_ne_nil (candidate_pool_ne_nil t (ids.getD []))
  obtain ⟨n, rfl⟩ := Nat.exists_eq_add_of_le hr
  have hchosen : _pick_ratios_for_topos t RatioMode.full (1 + n) (ids.getD []) =
      p :: (ps.take n) := by
    rw [pick_full, hpool, Nat.add_comm]
    rfl
  have hbankall : ∀ rid ∈ _pick_ratios_for_topos t RatioMode.full (1 + n) (ids.getD []),
      (RATIO_BANK.lookup rid).isSome = true := pick_bank t RatioMode.full (1 + n) (ids.getD [])
  obtain ⟨fa, aa, hvar, hfmap, hamap, hfall, haall⟩ :=
    variants_some t claim ls
      (_base_parts t claim ls).base_for_text (_base_parts t claim ls).base_against_text
      (_base_parts t claim ls).for_suggestions (_base_parts t claim ls).against_suggestions
      (_pick_ratios_for_topos t RatioMode.full (1 + n) (ids.getD [])) hbankall
  have hlenf : fa.length = (_pick_ratios_for_topos t RatioMode.full (1 + n) (ids.getD [])).length := by
    have := congrArg List.length hfmap
    simpa using this
  have hlena : aa.length = (_pick_ratios_for_topos t RatioMode.full (1 + n) (ids.getD [])).length := by
    have := congrArg List.length hamap
    simpa using this
  have hchlen : (_pick_ratios_for_topos t RatioMode.full (1 + n) (ids.getD [])).length =
      min (1 + n) (_candidate_pool t (ids.getD [])).length := by
    rw [pick_full, List.length_take]
  have hpoolpos : 1 ≤ (_candidate_pool t (ids.getD [])).length := by
    rw [hpool]
    simp
  refine ⟨fa, aa, ?_, ?_, ?_, ?_, ?_, ?_, ?_, hfall, haall⟩
  · simp only [generate_arguments_for_topos]
    rw [wrap_full t claim ls _ _ _ _ _ (by rw [hchosen]; simp)]
    exact hvar
  · rw [hlenf, hchlen]
    exact Nat.le_min.2 ⟨hr, hpoolpos⟩
  · rw [hlenf, hchlen]
    exact Nat.min_le_left _ _
  · rw [hlenf, hlena]
  · rw [hlenf, hchlen]
    exact Nat.min_le_right _ _
  · rw [hfmap]
    exact (pick_nodup t RatioMode.full (1 + n) (ids.getD [])).map (Option.some_injective String)
  · rw [hamap]
    exact (pick_nodup t RatioMode.full (1 + n) (ids.getD [])).map (Option.some_injective String)

lemma gen_shape (t claim : String) (ls : Option (List String)) (mode : RatioMode)
    (rpt : Nat) (ids : Option (List String)) :
    ∃ fa aa, generate_arguments_for_topos t claim ls mode rpt ids = some (fa, aa) ∧
      1 ≤ fa.length ∧ aa.length = fa.length ∧
      (∀ a ∈ fa, a.topos = t) ∧ (∀ a ∈ aa, a.topos = t) := by
  cases mode with
  | off =>
    rw [gen_off]
    refine ⟨_, _, rfl, ?_, ?_, ?_, ?_⟩ <;> simp
  | light =>
    obtain ⟨a, b, rid, heq, _, hat, _, _, hbt, _, _⟩ := gen_light t claim ls rpt ids
    exact ⟨[a], [b], heq, by simp, by simp, by simp [hat], by simp [hbt]⟩
  | full =>
    by_cases hch : _pick_ratios_for_topos t RatioMode.full rpt (ids.getD []) = []
    · have heq : generate_arguments_for_topos t claim ls RatioMode.full rpt ids =
          some ([{ topos := t, argument := (_base_parts t claim ls).base_for_text,
                   suggestions := (_base_parts t claim ls).for_suggestions }],
                [{ topos := t, argument := (_base_parts t claim ls).base_against_text,
                   suggestions := (_base_parts t claim ls).against_suggestions }]) := by
        simp only [generate_arguments_for_topos]
        rw [hch]
        exact wrap_plain t claim ls RatioMode.full [] _ _ _ _ (Or.inr rfl)
      refine ⟨_, _, heq, ?_, ?_, ?_, ?_⟩ <;> simp
    · obtain ⟨fa, aa, hvar, hfmap, hamap, hfall, haall⟩ :=
        variants_some t claim ls
          (_base_parts t claim ls).base_for_text (_base_parts t claim ls).base_against_text
          (_base_parts t claim ls).for_suggestions (_base_parts t claim ls).against_suggestions
          (_pick_ratios_for_topos t RatioMode.full rpt (ids.getD []))
          (pick_bank t RatioMode.full rpt (ids.getD []))
      have hlenf : fa.length =
          (_pick_ratios_for_topos t RatioMode.full rpt (ids.getD [])).length := by
        have := congrArg List.length hfmap
        simpa using this
      have hlena : aa.length =
          (_pick_ratios_for_topos t RatioMode.full rpt (ids.getD [])).length := by
        have := congrArg List.length hamap
        simpa using this
      refine ⟨fa, aa, ?_, ?_, by rw [hlenf, hlena], fun a ha => (hfall a ha).1,
        fun a ha => (haall a ha).1⟩
      · simp only [generate_arguments_for_topos]
        rw [wrap_full t claim ls _ _ _ _ _ hch]
        exact hvar
      · rw [hlenf]
        exact List.length_pos.2 hch

/-! ## Loop lemmas: the topic loop of lol_action, by induction over the
selected topic list. -/

lemma collect_shape (claim : String) (ls : Option (List String)) (mode : RatioMode)
    (rpt : Nat) (ids : List String) :
    ∀ l : List String, ∃ fa aa counts,
      _collect l claim ls mode rpt ids = some (fa, aa) ∧
      counts.length = l.length ∧ (∀ c ∈ counts, 1 ≤ c) ∧
      fa.map Argument.topos = (l.zip counts).flatMap (fun p => List.replicate p.2 p.1) ∧
      aa.map Argument.topos = (l.zip counts).flatMap (fun p => List.replicate p.2 p.1) := by
  intro l
  induction l with
  | nil => exact ⟨[], [], [], rfl, rfl, by simp, by simp, by simp⟩
  | cons t rest ih =>
    obtain ⟨fa, aa, hgen, h1, hlen, hfall, haall⟩ := gen_shape t claim ls mode rpt (some ids)
    obtain ⟨fs, bs, cs, hcol, hcslen, hcs1, hfmap, hbmap⟩ := ih
    refine ⟨fa ++ fs, aa ++ bs, fa.length :: cs, ?_, by simp [hcslen], ?_, ?_, ?_⟩
    · simp only [_collect, hgen, hcol]
    · intro c hc
      rcases List.mem_cons.1 hc with rfl | hc
      · exact h1
      · exact hcs1 c hc
    · have hfa : fa.map Argument.topos = List.replicate fa.length t :=
        List.eq_replicate_iff.2 ⟨by simp, by simpa using hfall⟩
      simp [List.zip_cons_cons, hfa, hfmap]
    · have haa : aa.map Argument.topos = List.replicate fa.length t :=
        List.eq_replicate_iff.2 ⟨by simp [hlen], by simpa using haall⟩
      simp [List.zip_cons_cons, haa, hbmap]

lemma collect_off (claim : String) (ls : Option (List String)) (rpt : Nat)
    (ids : List String) :
    ∀ l : List String, ∃ fa aa,
      _collect l claim ls RatioMode.off rpt ids = some (fa, aa) ∧
      fa.map Argument.topos = l ∧ aa.map Argument.topos = l ∧
      ∀ a, (a ∈ fa ∨ a ∈ aa) → a.ratio_id = none ∧ a.ratio = none := by
  intro l
  induction l with
  | nil => exact ⟨[], [], rfl, rfl, rfl, by simp⟩
  | cons t rest ih =>
    obtain ⟨fs, bs, hcol, hfmap, hbmap, hnone⟩ := ih
    have hstep : _collect (t :: rest) claim ls RatioMode.off rpt ids =
        some ({ topos := t, argument := (_base_parts t claim ls).base_for_text,
                suggestions := (_base_parts t claim ls).for_suggestions } :: fs,
              { topos := t, argument := (_base_parts t claim ls).base_against_text,
                suggestions := (_base_parts t claim ls).against_suggestions } :: bs) := by
      simp only [_collect, gen_off, hcol, List.singleton_append]
    refine ⟨_, _, hstep, ?_, ?_, ?_⟩
    · simp [hfmap]
    · simp [hbmap]
    · intro a ha
      rcases ha with ha | ha <;> rcases List.mem_cons.1 ha with rfl | ha
      · exact ⟨rfl, rfl⟩
      · exact hnone a (Or.inl ha)
      · exact ⟨rfl, rfl⟩
      · exact hnone a (Or.inr ha)

lemma collect_light (claim : String) (ls : Option (List String)) (rpt : Nat)
    (ids : List String) :
    ∀ l : List String, ∃ fa aa,
      _collect l claim ls RatioMode.light rpt ids = some (fa, aa) ∧
      fa.map Argument.topos = l ∧ aa.map Argument.topos = l ∧
      ∀ a, (a ∈ fa ∨ a ∈ aa) →
        ∃ rid, a.ratio_id = some rid ∧ rid ≠ "" ∧ (RATIO_BANK.lookup rid).isSome = true := by
  intro l
  induction l with
  | nil => exact ⟨[], [], rfl, rfl, rfl, by simp⟩
  | cons t rest ih =>
    obtain ⟨x, y, rid, hgen, hbank, hxt, hxi, _, hyt, hyi, _⟩ :=
      gen_light t claim ls rpt (some ids)
    obtain ⟨fs, bs, hcol, hfmap, hbmap, hlens⟩ := ih
    refine ⟨x :: fs, y :: bs, ?_, ?_, ?_, ?_⟩
    · simp only [_collect, hgen, hcol, List.singleton_append]
    · simp [hxt, hfmap]
    · simp [hyt, hbmap]
    · intro a ha
      rcases ha with ha | ha <;> rcases List.mem_cons.1 ha with rfl | ha
      · exact ⟨rid, hxi, bank_key_ne_empty rid hbank, hbank⟩
      · exact hlens a (Or.inl ha)
      · exact ⟨rid, hyi, bank_key_ne_empty rid hbank, hbank⟩
      · exact hlens a (Or.inr ha)

lemma collect_lensed (claim : String) (ls : Option (List String)) (mode : RatioMode)
    (rpt : Nat) (ids : List String) (hm : mode ≠ RatioMode.off) (hr : 1 ≤ rpt) :
    ∀ l : List String, ∃ fa aa,
      _collect l claim ls mode rpt ids = some (fa, aa) ∧
      ∀ a, (a ∈ fa ∨ a ∈ aa) → a.ratio_id.isSome = true ∧ a.ratio.isSome = true := by
  intro l
  induction l with
  | nil => exact ⟨[], [], rfl, by simp⟩
  | cons t rest ih =>
    obtain ⟨fs, bs, hcol, hlens⟩ := ih
    have hgen : ∃ fa aa, generate_arguments_for_topos t claim ls mode rpt (some ids) =
        some (fa, aa) ∧
        (∀ a ∈ fa, a.ratio_id.isSome = true ∧ a.ratio.isSome = true) ∧
        (∀ a ∈ aa, a.ratio_id.isSome = true ∧ a.ratio.isSome = true) := by
      cases mode with
      | off => exact absurd rfl hm
      | light =>
        obtain ⟨x, y, rid, hgen, _, _, hxi, hxr, _, hyi, hyr⟩ :=
          gen_light t claim ls rpt (some ids)
        exact ⟨[x], [y], hgen,
          by intro a ha; rcases List.mem_singleton.1 ha with rfl; exact ⟨by simp [hxi], hxr⟩,
          by intro a ha; rcases List.mem_singleton.1 ha with rfl; exact ⟨by simp [hyi], hyr⟩⟩
      | full =>
        obtain ⟨fa, aa, hgen, _, _, _, _, _, _, hfall, haall⟩ :=
          gen_full t claim ls rpt (some ids) hr
        exact ⟨fa, aa, hgen, fun a ha => ⟨(hfall a ha).2.1, (hfall a ha).2.2⟩,
          fun a ha => ⟨(haall a ha).2.1, (haall a ha).2.2⟩⟩
    obtain ⟨fa, aa, hgeneq, hfall, haall⟩ := hgen
    refine ⟨fa ++ fs, aa ++ bs, ?_, ?_⟩
    · simp only [_collect, hgeneq, hcol]
    · intro a ha
      rcases ha with ha | ha <;> rcases List.mem_append.1 ha with ha | ha
      · exact hfall a ha
      · exact hlens a (Or.inl ha)
      · exact haall a ha
      · exact hlens a (Or.inr ha)

/-! ## Normalization lemmas: dropping the unknown requested ids before
normalization changes nothing. -/

lemma norm_step_skip (out : List String) (r : String)
    (h : (RATIO_BANK.lookup (pyStrip r)).isSome = false) : _norm_step out r = out := by
  simp [_norm_step, h]

lemma foldl_norm_filter (l : List String) :
    ∀ acc, (l.filter (fun r => (RATIO_BANK.lookup (pyStrip r)).isSome)).foldl _norm_step acc =
      l.foldl _norm_step acc := by
  induction l with
  | nil => intro _; rfl
  | cons r rest ih =>
    intro acc
    cases hp : (RATIO_BANK.lookup (pyStrip r)).isSome with
    | true =>
      rw [List.filter_cons, if_pos (by simp [hp]), List.foldl_cons, List.foldl_cons, ih]
    | false =>
      rw [List.filter_cons, if_neg (by simp [hp]), ih, List.foldl_cons, norm_step_skip acc r hp]

lemma normalize_filter (l : List String) :
    _normalize_ratio_ids (some (l.filter (fun r => (RATIO_BANK.lookup (pyStrip r)).isSome))) =
      _normalize_ratio_ids (some l) := by
  simp only [_normalize_ratio_ids]
  exact foldl_norm_filter l []

/-- lol_action, rewritten through the result of its topic loop. -/
lemma lol_action_eq (req : LolRequest) (fa aa : List Argument)
    (h : _collect (TOPOI.take req.max_topoi) req.claim req.legal_sources req.ratio_mode
        req.ratios_per_topos (_normalize_ratio_ids req.ratios) = some (fa, aa)) :
    lol_action req = some { claim := req.claim, language := req.language,
                            for_arguments := fa, against := aa } := by
  simp only [lol_action, h]


/-! ## Claim theorems -/

/-- C1: For every valid topic limit N in [1,7], the engine (lol_action)
returns FOR and AGAINST arguments covering exactly the first N topics of
the canonical ordered 7-entry catalog TOPOI, in that order — each selected
topic contributes a positive block of consecutive arguments on each side
and no argument belongs to any other topic. -/
theorem lol_action_covers_first_topoi (req : LolRequest)
    (_h1 : 1 ≤ req.max_topoi) (h2 : req.max_topoi ≤ 7) :
    ∃ resp counts, lol_action req = some resp ∧
      counts.length = req.max_topoi ∧ (∀ c ∈ counts, 1 ≤ c) ∧
      resp.for_arguments.map Argument.topos =
        ((TOPOI.take req.max_topoi).zip counts).flatMap (fun p => List.replicate p.2 p.1) ∧
      resp.against.map Argument.topos =
        ((TOPOI.take req.max_topoi).zip counts).flatMap (fun p => List.replicate p.2 p.1) := by
  obtain ⟨fa, aa, counts, hcol, hclen, hc1, hfm, ham⟩ :=
    collect_shape req.claim req.legal_sources req.ratio_mode req.ratios_per_topos
      (_normalize_ratio_ids req.ratios) (TOPOI.take req.max_topoi)
  refine ⟨_, counts, lol_action_eq req fa aa hcol, ?_, hc1, hfm, ham⟩
  rw [hclen, List.length_take]
  have h7 : TOPOI.length = 7 := rfl
  rw [h7]
  exact Nat.min_eq_left h2

theorem lol_action_covers_first_topoi_witness :
    1 ≤ reqOff3.max_topoi ∧ reqOff3.max_topoi ≤ 7 ∧
    (∃ resp counts, lol_action reqOff3 = some resp ∧
      counts.length = reqOff3.max_topoi ∧ (∀ c ∈ counts, 1 ≤ c) ∧
      resp.for_arguments.map Argument.topos =
        ((TOPOI.take reqOff3.max_topoi).zip counts).flatMap
          (fun p => List.replicate p.2 p.1) ∧
      resp.against.map Argument.topos =
        ((TOPOI.take reqOff3.max_topoi).zip counts).flatMap
          (fun p => List.replicate p.2 p.1)) :=
  ⟨by decide, by decide, lol_action_covers_first_topoi reqOff3 (by decide) (by decide)⟩

/-- C2, counterexample: the lens catalog RATIO_BANK holds exactly 7
distinct lens identifiers, not 8 as the claim states. -/
theorem ratio_bank_has_seven_entries_not_eight :
    RATIO_BANK.length = 7 ∧ ¬(RATIO_BANK.length = 8) ∧ (RATIO_BANK.map Prod.fst).Nodup :=
  ⟨by decide, by decide, by decide⟩

/-- C2, amended: the lens catalog is a fixed catalog of exactly 7 lens
identifiers, each holding a non-empty human-readable label and one
non-empty template per side; with limit=7 and mode="light", every one of
the 7 FOR and 7 AGAINST arguments carries a non-null lens identifier from
that 7-entry catalog. -/
theorem ratio_bank_seven_and_light_scenario :
    RATIO_BANK.length = 7 ∧ (RATIO_BANK.map Prod.fst).Nodup ∧
    (RATIO_BANK.all (fun e =>
      e.2.label != "" && e.2.forText != "" && e.2.againstText != "") = true) ∧
    ((lol_action reqLight7).map
        (fun r => (r.for_arguments.length, r.against.length)) = some (7, 7)) ∧
    ((lol_action reqLight7).map
        (fun r => (r.for_arguments ++ r.against).all
          (fun a => a.ratio_id.any (fun rid => (RATIO_BANK.lookup rid).isSome))) =
      some true) :=
  ⟨by decide, by decide, by decide, by decide, by decide⟩

/-- C3: with lens mode "off", every Argument in both output lists has no
lens identifier and no lens label, and there is exactly one FOR and one
AGAINST Argument per selected topic. -/
theorem lol_action_off_mode_plain (req : LolRequest) (h : req.ratio_mode = RatioMode.off) :
    ∃ resp, lol_action req = some resp ∧
      resp.for_arguments.map Argument.topos = TOPOI.take req.max_topoi ∧
      resp.against.map Argument.topos = TOPOI.take req.max_topoi ∧
      ∀ a, (a ∈ resp.for_arguments ∨ a ∈ resp.against) →
        a.ratio_id = none ∧ a.ratio = none := by
  obtain ⟨fa, aa, hcol, hf, hb, hnone⟩ :=
    collect_off req.claim req.legal_sources req.ratios_per_topos
      (_normalize_ratio_ids req.ratios) (TOPOI.take req.max_topoi)
  exact ⟨_, lol_action_eq req fa aa (by rw [h]; exact hcol), hf, hb, hnone⟩

theorem lol_action_off_mode_plain_witness :
    reqOff2.ratio_mode = RatioMode.off ∧
    (∃ resp, lol_action reqOff2 = some resp ∧
      resp.for_arguments.map Argument.topos = TOPOI.take reqOff2.max_topoi ∧
      resp.against.map Argument.topos = TOPOI.take reqOff2.max_topoi ∧
      ∀ a, (a ∈ resp.for_arguments ∨ a ∈ resp.against) →
        a.ratio_id = none ∧ a.ratio = none) :=
  ⟨rfl, lol_action_off_mode_plain reqOff2 rfl⟩

/-- C4: with lens mode "light", each selected topic yields exactly one FOR
and one AGAINST Argument, each carrying a non-empty lens identifier that is
a key of the lens catalog RATIO_BANK. -/
theorem lol_action_light_mode_lensed (req : LolRequest)
    (h : req.ratio_mode = RatioMode.light) :
    ∃ resp, lol_action req = some resp ∧
      resp.for_arguments.map Argument.topos = TOPOI.take req.max_topoi ∧
      resp.against.map Argument.topos = TOPOI.take req.max_topoi ∧
      ∀ a, (a ∈ resp.for_arguments ∨ a ∈ resp.against) →
        ∃ rid, a.ratio_id = some rid ∧ rid ≠ "" ∧
          (RATIO_BANK.lookup rid).isSome = true := by
  obtain ⟨fa, aa, hcol, hf, hb, hlens⟩ :=
    collect_light req.claim req.legal_sources req.ratios_per_topos
      (_normalize_ratio_ids req.ratios) (TOPOI.take req.max_topoi)
  exact ⟨_, lol_action_eq req fa aa (by rw [h]; exact hcol), hf, hb, hlens⟩

theorem lol_action_light_mode_lensed_witness :
    reqLight2.ratio_mode = RatioMode.light ∧
    (∃ resp, lol_action reqLight2 = some resp ∧
      resp.for_arguments.map Argument.topos = TOPOI.take reqLight2.max_topoi ∧
      resp.against.map Argument.topos = TOPOI.take reqLight2.max_topoi ∧
      ∀ a, (a ∈ resp.for_arguments ∨ a ∈ resp.against) →
        ∃ rid, a.ratio_id = some rid ∧ rid ≠ "" ∧
          (RATIO_BANK.lookup rid).isSome = true) :=
  ⟨rfl, lol_action_light_mode_lensed reqLight2 rfl⟩

/-- C5: with lens mode "full" and configured cap C in [1,4], each topic
yields between 1 and C Arguments per side (never zero, never more than C),
the lens identifiers used per topic per side are pairwise distinct, and
their number never exceeds C nor the size of the (duplicate-free) pool of
applicable lens identifiers. -/
theorem generate_full_mode_bounds (topos claim : String) (ls : Option (List String))
    (rpt : Nat) (ids : Option (List String)) (h1 : 1 ≤ rpt) (_h2 : rpt ≤ 4) :
    ∃ fa aa, generate_arguments_for_topos topos claim ls RatioMode.full rpt ids =
        some (fa, aa) ∧
      1 ≤ fa.length ∧ fa.length ≤ rpt ∧ 1 ≤ aa.length ∧ aa.length ≤ rpt ∧
      (fa.map Argument.ratio_id).Nodup ∧ (aa.map Argument.ratio_id).Nodup ∧
      (_candidate_pool topos (ids.getD [])).Nodup ∧
      fa.length ≤ (_candidate_pool topos (ids.getD [])).length ∧
      aa.length ≤ (_candidate_pool topos (ids.getD [])).length := by
  obtain ⟨fa, aa, heq, hf1, hfr, hlen, hfp, hnf, hna, _, _⟩ :=
    gen_full topos claim ls rpt ids h1
  exact ⟨fa, aa, heq, hf1, hfr, by rw [hlen]; exact hf1, by rw [hlen]; exact hfr,
    hnf, hna, candidate_pool_nodup _ _, hfp, by rw [hlen]; exact hfp⟩

theorem generate_full_mode_bounds_witness :
    1 ≤ 2 ∧ 2 ≤ 4 ∧
    (∃ fa aa, generate_arguments_for_topos "Lovlighed" "X" none RatioMode.full 2 none =
        some (fa, aa) ∧
      1 ≤ fa.length ∧ fa.length ≤ 2 ∧ 1 ≤ aa.length ∧ aa.length ≤ 2 ∧
      (fa.map Argument.ratio_id).Nodup ∧ (aa.map Argument.ratio_id).Nodup ∧
      (_candidate_pool "Lovlighed" ((none : Option (List String)).getD [])).Nodup ∧
      fa.length ≤ (_candidate_pool "Lovlighed" ((none : Option (List String)).getD [])).length ∧
      aa.length ≤ (_candidate_pool "Lovlighed" ((none : Option (List String)).getD [])).length) :=
  ⟨by decide, by decide,
    generate_full_mode_bounds "Lovlighed" "X" none 2 none (by decide) (by decide)⟩

/-- C6: caller-requested lens identifiers take priority over a topic's
default lenses.  For claim="X", limit=2, mode="full", lensCountPerTopic=4,
requestedLensIds=["agent_act"], the two selected topics are Lovlighed and
Retfærdighed; for each, "agent_act" comes first among its chosen lens
identifiers, followed by that topic's defaults, and at most 4 Arguments
per side per topic are produced (3 for Lovlighed, 2 for Retfærdighed). -/
theorem lol_action_requested_ratio_priority :
    (lol_action reqFull2).map
        (fun r => (r.for_arguments.map (fun a => (a.topos, a.ratio_id)),
                   r.against.map (fun a => (a.topos, a.ratio_id)))) =
      some ([("Lovlighed", some "agent_act"), ("Lovlighed", some "agency_act"),
             ("Lovlighed", some "act_purpose"), ("Retfærdighed", some "agent_act"),
             ("Retfærdighed", some "act_agent")],
            [("Lovlighed", some "agent_act"), ("Lovlighed", some "agency_act"),
             ("Lovlighed", some "act_purpose"), ("Retfærdighed", some "agent_act"),
             ("Retfærdighed", some "act_agent")]) := by
  decide

/-- C7: requesting lens identifiers that are not in the lens catalog has no
effect on the output — for every request, dropping from the requested list
exactly those entries whose stripped form is not a RATIO_BANK key yields an
identical lol_action result. -/
theorem lol_action_unknown_ratios_ignored (req : LolRequest) (l : List String) :
    lol_action { req with
        ratios := some (l.filter (fun r => (RATIO_BANK.lookup (pyStrip r)).isSome)) } =
      lol_action { req with ratios := some l } := by
  simp only [lol_action]
  rw [normalize_filter]

/-- C8: the legal-source formatting function is a pure function that, for
an absent list, an empty list, or a list whose entries are all empty after
stripping, returns the fixed placeholder instructing the caller to supply a
citation; and for ["A","B","C","D"] returns exactly the first 3 entries
joined by "; ", a result that never contains "D". -/
theorem format_legal_sources_spec :
    (_format_legal_sources none = noSourcePlaceholder) ∧
    (_format_legal_sources (some []) = noSourcePlaceholder) ∧
    (∀ l : List String, (∀ s ∈ l, pyStrip s = "") →
      _format_legal_sources (some l) = noSourcePlaceholder) ∧
    (_format_legal_sources (some ["", "   "]) = noSourcePlaceholder) ∧
    (_format_legal_sources (some ["A", "B", "C", "D"]) = "A; B; C") ∧
    (("A; B; C").data.contains 'D' = false) := by
  refine ⟨rfl, rfl, ?_, by decide, by decide, by decide⟩
  intro l hl
  by_cases he : l = []
  · subst he
    rfl
  · have hfil : l.filter (fun s => s != "" && pyStrip s != "") = [] := by
      rw [List.filter_eq_nil_iff]
      intro s hs
      simp [hl s hs]
    simp [_format_legal_sources, he, hfil]

/-- C9: the core never raises for any input: generate_arguments_for_topos
and lol_action always return a value (`none`, the embedded image of a
Python exception, is never produced); and an unrecognized topic identifier
passed directly to the base generator does not crash but yields the generic
fallback FOR/AGAINST pair referencing the raw topic identifier, each side
with the same 2 generic suggestions. -/
theorem core_total_and_fallback :
    (∀ (topos claim : String) (ls : Option (List String)) (mode : RatioMode)
        (rpt : Nat) (ids : Option (List String)),
      (generate_arguments_for_topos topos claim ls mode rpt ids).isSome = true) ∧
    (∀ req : LolRequest, (lol_action req).isSome = true) ∧
    (∀ (topos claim : String) (ls : Option (List String)), topos ∉ TOPOI →
      generate_arguments_for_topos topos claim ls = some (
        [{ topos := topos,
           argument := "FOR påstanden '" ++ claim ++ "' kan der ud fra '" ++ topos ++
             "'-topos formuleres generelle fordele.",
           suggestions := ["Uddyb topos nærmere.", "Brug konkrete eksempler."] }],
        [{ topos := topos,
           argument := "IMOD påstanden '" ++ claim ++ "' kan der ud fra '" ++ topos ++
             "'-topos formuleres generelle ulemper.",
           suggestions := ["Uddyb topos nærmere.", "Brug konkrete eksempler."] }])) := by
  refine ⟨?_, ?_, ?_⟩
  · intro topos claim ls mode rpt ids
    obtain ⟨fa, aa, heq, _⟩ := gen_shape topos claim ls mode rpt ids
    rw [heq]
    rfl
  · intro req
    obtain ⟨fa, aa, counts, hcol, _⟩ :=
      collect_shape req.claim req.legal_sources req.ratio_mode req.ratios_per_topos
        (_normalize_ratio_ids req.ratios) (TOPOI.take req.max_topoi)
    rw [lol_action_eq req fa aa hcol]
    rfl
  · intro topos claim ls h
    simp only [TOPOI, List.mem_cons, List.not_mem_nil, or_false] at h
    push_neg at h
    obtain ⟨h1, h2, h3, h4, h5, h6, h7⟩ := h
    have hb : _base_parts topos claim ls =
        { base_for_text := "FOR påstanden '" ++ claim ++ "' kan der ud fra '" ++ topos ++
            "'-topos formuleres generelle fordele.",
          base_against_text := "IMOD påstanden '" ++ claim ++ "' kan der ud fra '" ++ topos ++
            "'-topos formuleres generelle ulemper.",
          for_suggestions := ["Uddyb topos nærmere.", "Brug konkrete eksempler."],
          against_suggestions := ["Uddyb topos nærmere.", "Brug konkrete eksempler."] } := by
      simp [_base_parts, h1, h2, h3, h4, h5, h6, h7]
    rw [gen_off, hb]

/-- C10: every canonical topic has configured, non-empty default lenses,
all of them keys of the lens catalog, and so is the hard-coded fallback
"scene_act"; hence for modes other than "off" (with the boundary-validated
cap at least 1) the resolved lens selection is never empty, and through the
public entry point every produced Argument carries a lens identifier and a
lens label — the empty-pool branch that would emit a plain Argument is
unreachable. -/
theorem canonical_topics_always_lensable :
    (TOPOI.all (fun t =>
        match TOPOS_TO_DEFAULT_RATIOS.lookup t with
        | some ds => !ds.isEmpty && ds.all (fun d => (RATIO_BANK.lookup d).isSome)
        | none => false) = true) ∧
    ((RATIO_BANK.lookup "scene_act").isSome = true) ∧
    (∀ (topos : String) (mode : RatioMode) (rpt : Nat) (ids : List String),
      mode ≠ RatioMode.off → 1 ≤ rpt → _pick_ratios_for_topos topos mode rpt ids ≠ []) ∧
    (∀ req : LolRequest, req.ratio_mode ≠ RatioMode.off → 1 ≤ req.ratios_per_topos →
      ∀ resp, lol_action req = some resp →
        ∀ a, (a ∈ resp.for_arguments ∨ a ∈ resp.against) →
          a.ratio_id.isSome = true ∧ a.ratio.isSome = true) := by
  refine ⟨by decide, by decide, ?_, ?_⟩
  · intro topos mode rpt ids hm hr
    cases mode with
    | off => exact absurd rfl hm
    | light =>
      rw [pick_light]
      obtain ⟨p, ps, hp⟩ := List.exists_cons_of_ne_nil (candidate_pool_ne_nil topos ids)
      rw [hp]
      simp
    | full =>
      rw [pick_full]
      obtain ⟨p, ps, hp⟩ := List.exists_cons_of_ne_nil (candidate_pool_ne_nil topos ids)
      obtain ⟨n, rfl⟩ := Nat.exists_eq_add_of_le hr
      rw [hp, Nat.add_comm]
      simp
  · intro req hm hr resp hresp a ha
    obtain ⟨fa, aa, hcol, hlens⟩ :=
      collect_lensed req.claim req.legal_sources req.ratio_mode req.ratios_per_topos
        (_normalize_ratio_ids req.ratios) hm hr (TOPOI.take req.max_topoi)
    rw [lol_action_eq req fa aa hcol] at hresp
    cases Option.some.inj hresp
    exact hlens a ha
